import Mathlib

/-!
Shallow embedding of the NICD data-innovation-showcase computer-vision
notebooks (`DataInnovationShowcase_ComputerVision.ipynb` and its near-duplicate
second notebook).  Python/PyTorch numeric values are modelled as exact
rationals or reals; 1-D integer label tensors are modelled as `List ℤ`;
image tensors of shape `C×H×W` are functions `Fin C → Fin H → Fin W → ℝ`.
-/

namespace CV

/-! ### `accuracy_fn` (notebook cell "Define the accuracy")

```python
def accuracy_fn(y_true, y_pred):
    correct = torch.eq(y_true, y_pred).sum().item()
    acc = (correct / len(y_pred)) * 100
    return acc
```
-/

/-- `torch.eq(y_true, y_pred).sum().item()` for two equal-length 1-D integer
label tensors: the number of index positions at which the tensors agree
(elementwise equality, then sum of the resulting 0/1 tensor). -/
def countEq (y_true y_pred : List ℤ) : ℕ :=
  (List.zipWith (fun a b => if a = b then 1 else 0) y_true y_pred).sum

/-- The notebook's `accuracy_fn`: `(correct / len(y_pred)) * 100`, with the
Python float division modelled as exact rational division. -/
def accuracy_fn (y_true y_pred : List ℤ) : ℚ :=
  ((countEq y_true y_pred : ℚ) / (y_pred.length : ℚ)) * 100

lemma countEq_nil_right (y_true : List ℤ) : countEq y_true [] = 0 := by
  cases y_true <;> simp [countEq]

lemma countEq_cons (a b : ℤ) (as bs : List ℤ) :
    countEq (a :: as) (b :: bs) = (if a = b then 1 else 0) + countEq as bs := by
  simp [countEq]

lemma countEq_self (l : List ℤ) : countEq l l = l.length := by
  induction l with
  | nil => simp [countEq]
  | cons a as ih => simp [countEq_cons, ih]; omega

lemma countEq_eq_zero_of_ne (y_true y_pred : List ℤ)
    (h : ∀ p ∈ y_true.zip y_pred, p.1 ≠ p.2) : countEq y_true y_pred = 0 := by
  induction y_true generalizing y_pred with
  | nil => simp [countEq]
  | cons a as ih =>
    cases y_pred with
    | nil => simp [countEq_nil_right]
    | cons b bs =>
      have hab : a ≠ b := h (a, b) (by simp [List.zip_cons_cons])
      have hrest : ∀ p ∈ as.zip bs, p.1 ≠ p.2 := by
        intro p hp
        exact h p (by simp [List.zip_cons_cons, hp])
      simp [countEq_cons, hab, ih bs hrest]

lemma countEq_le_length (y_true y_pred : List ℤ) :
    countEq y_true y_pred ≤ y_pred.length := by
  induction y_true generalizing y_pred with
  | nil => simp [countEq]
  | cons a as ih =>
    cases y_pred with
    | nil => simp [countEq_nil_right]
    | cons b bs =>
      have := ih bs
      by_cases hab : a = b <;> simp [countEq_cons, hab] <;> omega

end CV

/-! ### Claim theorems for `accuracy_fn` -/

/-- C1: for every pair of equal-length non-empty label tensors,
`accuracy_fn y_true y_pred` returns `100 * (number of agreeing indices) /
len(y_pred)`; in particular it returns 100 when the predictions equal the
truth elementwise and 0 when they differ at every index. -/
theorem CV.accuracy_fn_spec (y_true y_pred : List ℤ)
    (hlen : y_true.length = y_pred.length) (hne : y_pred ≠ []) :
    accuracy_fn y_true y_pred
        = 100 * (countEq y_true y_pred : ℚ) / (y_pred.length : ℚ)
      ∧ (y_true = y_pred → accuracy_fn y_true y_pred = 100)
      ∧ ((∀ p ∈ y_true.zip y_pred, p.1 ≠ p.2) →
          accuracy_fn y_true y_pred = 0) := by
  have hlen0 : (y_pred.length : ℚ) ≠ 0 := by
    have := List.length_pos.mpr hne
    exact Nat.cast_ne_zero.mpr (by omega)
  refine ⟨by rw [accuracy_fn]; ring, ?_, ?_⟩
  · intro heq
    subst heq
    rw [accuracy_fn, countEq_self]
    field_simp
  · intro hdiff
    rw [accuracy_fn, countEq_eq_zero_of_ne y_true y_pred hdiff]
    simp

/-- Witness for C1 at concrete inputs: identical tensors give accuracy 100,
everywhere-different tensors give accuracy 0. -/
theorem CV.accuracy_fn_spec_witness :
    CV.accuracy_fn [3, 4] [3, 4] = 100 ∧ CV.accuracy_fn [3, 4] [4, 3] = 0 :=
  ⟨(CV.accuracy_fn_spec [3, 4] [3, 4] rfl (by decide)).2.1 rfl,
   (CV.accuracy_fn_spec [3, 4] [4, 3] rfl (by decide)).2.2 (by decide)⟩

/-- C9: for equal-length non-empty inputs the division inside `accuracy_fn`
is over a non-zero denominator `len(y_pred)`, and the returned value lies in
the closed interval `[0, 100]`. -/
theorem CV.accuracy_fn_safe (y_true y_pred : List ℤ)
    (hlen : y_true.length = y_pred.length) (hne : y_pred ≠ []) :
    (y_pred.length : ℚ) ≠ 0
      ∧ 0 ≤ accuracy_fn y_true y_pred ∧ accuracy_fn y_true y_pred ≤ 100 := by
  have hpos : 0 < (y_pred.length : ℚ) := by
    exact_mod_cast List.length_pos.mpr hne
  refine ⟨ne_of_gt hpos, ?_, ?_⟩
  · apply mul_nonneg _ (by norm_num)
    exact div_nonneg (by positivity) (le_of_lt hpos)
  · have hle : (countEq y_true y_pred : ℚ) / (y_pred.length : ℚ) ≤ 1 := by
      rw [div_le_one hpos]
      exact_mod_cast countEq_le_length y_true y_pred
    calc CV.accuracy_fn y_true y_pred
        = (countEq y_true y_pred : ℚ) / (y_pred.length : ℚ) * 100 := rfl
      _ ≤ 1 * 100 := by nlinarith
      _ = 100 := by norm_num

/-- Witness for C9 at a concrete input. -/
theorem CV.accuracy_fn_safe_witness :
    ((([2, 5] : List ℤ).length : ℚ) ≠ 0)
      ∧ 0 ≤ CV.accuracy_fn [1, 5] [2, 5] ∧ CV.accuracy_fn [1, 5] [2, 5] ≤ 100 :=
  CV.accuracy_fn_safe [1, 5] [2, 5] rfl (by decide)

namespace CV

/-! ### The training loop body (notebook cell "Create the training and the test loop")

```python
for X, y in train_dataloader:
    model_0.train()
    # 1. Forward pass
    y_pred = model_0(X)
    # 2. Calculate loss (per batch)
    loss = loss_fn(y_pred, y)
    train_loss += loss
    # 3. For the Optimizer set gradients of all model parameters to zero
    optimizer.zero_grad()
    # 4. Loss backward
    loss.backward()
    # 5. Optimizer step
    optimizer.step()
```

The five operations of one inner iteration, as a small-step semantics on the
optimiser/model state.  The batch `(X, y)` is fixed, so the forward pass is a
function `fwd` of the parameters, the loss a function `lossOf` of the
prediction, and the gradient computed by `loss.backward()` a function
`gradOf` of the parameters (PyTorch `backward` accumulates into `.grad`,
hence `grads + gradOf params`; `.to(device)` moves are no-ops here). -/

inductive TrainOp where
  | forwardPass
  | lossCompute
  | zeroGrad
  | backward
  | optimStep
deriving DecidableEq

structure LoopState where
  params : ℚ
  grads : ℚ
  pred : ℚ
  lossv : ℚ
  trainLoss : ℚ

def applyOp (fwd lossOf gradOf : ℚ → ℚ) (lr : ℚ) :
    TrainOp → LoopState → LoopState
  | TrainOp.forwardPass, s => { s with pred := fwd s.params }
  | TrainOp.lossCompute, s =>
      { s with lossv := lossOf s.pred, trainLoss := s.trainLoss + lossOf s.pred }
  | TrainOp.zeroGrad, s => { s with grads := 0 }
  | TrainOp.backward, s => { s with grads := s.grads + gradOf s.params }
  | TrainOp.optimStep, s => { s with params := s.params - lr * s.grads }

def runOps (fwd lossOf gradOf : ℚ → ℚ) (lr : ℚ)
    (ops : List TrainOp) (s : LoopState) : LoopState :=
  ops.foldl (fun t op => applyOp fwd lossOf gradOf lr op t) s

/-- The order in which the five operations occur in the source's loop body
(the numbered comments 1–5 in the cell above). -/
def trainStepOps : List TrainOp :=
  [TrainOp.forwardPass, TrainOp.lossCompute, TrainOp.zeroGrad,
   TrainOp.backward, TrainOp.optimStep]

/-- The order asserted by the specification: zero gradients first. -/
def claimedStepOps : List TrainOp :=
  [TrainOp.zeroGrad, TrainOp.forwardPass, TrainOp.lossCompute,
   TrainOp.backward, TrainOp.optimStep]

/-! ### DataLoader batching (notebook cell "Create the dataloaders")

```python
BATCH_SIZE = 32
train_dataloader = DataLoader(train_data, batch_size=BATCH_SIZE, shuffle=True)
test_dataloader = DataLoader(test_data, batch_size=BATCH_SIZE, shuffle=False)
```
-/

def BATCH_SIZE : ℕ := 32

/-- FashionMNIST dataset sizes, as stated in the notebook itself: "It has a
training set of 60,000 examples and a test set of 10,000 examples." -/
def trainLen : ℕ := 60000

def testLen : ℕ := 10000

/-- The sizes of the batches yielded by
`torch.utils.data.DataLoader(dataset, batch_size=k)` over a dataset of `n`
samples, with the default `drop_last=False` used by the notebook:
`⌈n/k⌉` batches, each of `k` samples except for a possibly shorter final
batch (library-documented behaviour; sizes do not depend on `shuffle`). -/
def dlBatchSizes (n k : ℕ) : List ℕ :=
  (List.range ((n + k - 1) / k)).map (fun i => min k (n - k * i))

/-! ### Random garment index (notebook cell "Make predictions on test samples")

```python
random_garment_idx = random.randint(0, len(test_data))
sample_image, ground_truth_label = test_data[random_garment_idx]
```

(The second notebook draws from `train_data` instead, with the same form.) -/

/-- `random.randint(a, b)` can return `N` iff `a ≤ N ≤ b`: per the Python
standard library, `randint` includes *both* endpoints. -/
def randintCanReturn (a b N : ℤ) : Prop := a ≤ N ∧ N ≤ b

instance (a b N : ℤ) : Decidable (randintCanReturn a b N) := by
  unfold randintCanReturn; infer_instance

/-- `i` is a valid index into a dataset of `n` samples (`dataset[i]` with
`0 ≤ i < n`; a non-negative Python index out of this range raises
`IndexError`). -/
def validIdx (n : ℕ) (i : ℤ) : Prop := 0 ≤ i ∧ i < (n : ℤ)

instance (n : ℕ) (i : ℤ) : Decidable (validIdx n i) := by
  unfold validIdx; infer_instance

end CV

/-- C3 counterexample: the loop body does not perform the five operations in
the claimed order (zero gradients first); its first operation is the forward
pass, and gradients are zeroed only third. -/
theorem CV.trainStepOps_ne_claimed :
    CV.trainStepOps ≠ CV.claimedStepOps := by decide

/-- C3 amended: the loop body performs the operations in the order forward
pass, loss computation, zero gradients, backward pass, optimizer step; since
the gradients are zeroed before the backward pass, the resulting state after
one iteration is identical to that of the claimed zero-gradients-first
order. -/
theorem CV.trainStepOps_order_equiv :
    CV.trainStepOps
        = [TrainOp.forwardPass, TrainOp.lossCompute, TrainOp.zeroGrad,
           TrainOp.backward, TrainOp.optimStep]
      ∧ ∀ (fwd lossOf gradOf : ℚ → ℚ) (lr : ℚ) (s : LoopState),
          runOps fwd lossOf gradOf lr CV.trainStepOps s
            = runOps fwd lossOf gradOf lr CV.claimedStepOps s := by
  exact ⟨rfl, fun fwd lossOf gradOf lr s => rfl⟩

/-- C10 (evaluating the code at the failing input): `random.randint(0,
len(test_data))` can return `len(test_data) = 10000` itself, and `10000` is
not a valid index into the 10000-sample test set, so
`test_data[random_garment_idx]` raises `IndexError` on that draw. -/
theorem CV.randint_can_exceed_valid_indices :
    CV.randintCanReturn 0 (CV.testLen : ℤ) (CV.testLen : ℤ)
      ∧ ¬ CV.validIdx CV.testLen (CV.testLen : ℤ) := by
  constructor <;> decide

namespace CV

lemma dlBatchSizes_of_dvd (n k : ℕ) (hk : 0 < k) (h : k ∣ n) :
    ∀ s ∈ dlBatchSizes n k, s = k := by
  obtain ⟨q, rfl⟩ := h
  intro s hs
  simp only [dlBatchSizes, List.mem_map, List.mem_range] at hs
  obtain ⟨i, hi, rfl⟩ := hs
  have hnum : (k * q + k - 1) / k = q := by
    rcases Nat.eq_zero_or_pos q with hq | hq
    · subst hq
      have h0 : k * 0 + k - 1 = k - 1 := by omega
      rw [h0, Nat.div_eq_of_lt (by omega)]
    · have h1 : k * q + k - 1 = (k - 1) + k * q := by omega
      rw [h1, Nat.add_mul_div_left _ _ hk, Nat.div_eq_of_lt (by omega)]
      omega
  rw [hnum] at hi
  have h2 : k * q - k * i = k * (q - i) := by
    rw [Nat.mul_sub]
  have h3 : k ≤ k * (q - i) := Nat.le_mul_of_pos_right k (by omega)
  rw [h2]
  exact min_eq_left h3

/-! ### The testing loop's aggregate accuracy (same cell as the training loop)

```python
test_loss, test_acc = 0, 0
with torch.inference_mode():
    for X, y in test_dataloader:
        test_pred = model_0(X)
        test_loss += loss_fn(test_pred, y)
        test_acc += accuracy_fn(y_true=y, y_pred=test_pred.argmax(dim=1))
    test_loss /= len(test_dataloader)
    test_acc /= len(test_dataloader)
```

A test epoch is modelled by the list of its batches, each batch being the
pair (true labels, predicted labels `argmax(model output)`). -/

/-- The `test_acc` the notebook reports for one epoch: the per-batch
accuracies accumulated over the batches, divided by the number of batches
`len(test_dataloader)`. -/
def epochTestAcc (batches : List (List ℤ × List ℤ)) : ℚ :=
  (batches.map (fun b => accuracy_fn b.1 b.2)).sum / (batches.length : ℚ)

/-- The number of test samples whose predicted label matches the true label,
over all batches. -/
def totalCorrect (batches : List (List ℤ × List ℤ)) : ℕ :=
  (batches.map (fun b => countEq b.1 b.2)).sum

/-- The total number of test samples over all batches. -/
def totalCount (batches : List (List ℤ × List ℤ)) : ℕ :=
  (batches.map (fun b => b.2.length)).sum

/-- The percentage of all test-set samples whose predicted class matches the
true label — the quantity the specification says is being reported. -/
def overallTestAcc (batches : List (List ℤ × List ℤ)) : ℚ :=
  100 * (totalCorrect batches : ℚ) / (totalCount batches : ℚ)

lemma totalCount_uniform (batches : List (List ℤ × List ℤ)) (k : ℕ)
    (hsz : ∀ b ∈ batches, b.2.length = k) :
    totalCount batches = k * batches.length := by
  induction batches with
  | nil => simp [totalCount]
  | cons b bs ih =>
    simp only [totalCount, List.map_cons, List.sum_cons, List.length_cons] at ih ⊢
    rw [hsz b (by simp), ih (fun x hx => hsz x (by simp [hx]))]
    ring

lemma sum_accuracy_uniform (batches : List (List ℤ × List ℤ)) (k : ℕ)
    (hk : 0 < k) (hsz : ∀ b ∈ batches, b.2.length = k) :
    (batches.map (fun b => accuracy_fn b.1 b.2)).sum
      = 100 * (totalCorrect batches : ℚ) / (k : ℚ) := by
  induction batches with
  | nil => simp [totalCorrect]
  | cons b bs ih =>
    simp only [totalCorrect, List.map_cons, List.sum_cons] at ih ⊢
    rw [ih (fun x hx => hsz x (by simp [hx]))]
    rw [accuracy_fn, hsz b (by simp)]
    push_cast
    have hk0 : (k : ℚ) ≠ 0 := Nat.cast_ne_zero.mpr (by omega)
    field_simp
    ring

end CV

set_option maxRecDepth 40000

/-- C5 counterexample: with the notebook's `BATCH_SIZE = 32` and the
10000-sample test set, not every batch yielded by the test dataloader has 32
samples (`drop_last` defaults to `False`, so a short final batch is kept). -/
theorem CV.dl_test_batches_not_all_full :
    ¬ (∀ s ∈ CV.dlBatchSizes CV.testLen CV.BATCH_SIZE, s = CV.BATCH_SIZE) := by
  decide

/-- C5 amended: every train batch has exactly `BATCH_SIZE = 32` samples
(`60000 = 1875 · 32`); every test batch except the last has 32 samples, and
the last of the 313 test batches has `10000 mod 32 = 16` samples. -/
theorem CV.dl_batch_sizes_amended :
    (∀ s ∈ CV.dlBatchSizes CV.trainLen CV.BATCH_SIZE, s = CV.BATCH_SIZE)
      ∧ (∀ s ∈ (CV.dlBatchSizes CV.testLen CV.BATCH_SIZE).dropLast,
          s = CV.BATCH_SIZE)
      ∧ (CV.dlBatchSizes CV.testLen CV.BATCH_SIZE).getLast? = some 16
      ∧ (CV.dlBatchSizes CV.trainLen CV.BATCH_SIZE).length = 1875
      ∧ (CV.dlBatchSizes CV.testLen CV.BATCH_SIZE).length = 313 := by
  refine ⟨CV.dlBatchSizes_of_dvd _ _ (by decide) (by decide),
    by decide, by decide, ?_, by decide⟩
  simp [CV.dlBatchSizes, CV.trainLen, CV.BATCH_SIZE]

/-- C4 counterexample: with batches of unequal sizes, the mean of per-batch
accuracies the notebook reports differs from the overall percentage of
correctly classified samples.  Here one batch of two correct predictions and
one batch of a single wrong prediction give a reported accuracy of 50 while
the overall percentage is 200/3 ≈ 66.7. -/
theorem CV.epochTestAcc_ne_overall_cex :
    CV.epochTestAcc [([0, 0], [0, 0]), ([1], [2])]
      ≠ CV.overallTestAcc [([0, 0], [0, 0]), ([1], [2])] := by
  simp [CV.epochTestAcc, CV.overallTestAcc, CV.accuracy_fn, CV.countEq,
    CV.totalCorrect, CV.totalCount]
  norm_num

/-- C4 amended: the reported `test_acc` is the arithmetic mean of the
per-batch accuracies.  It equals the percentage of all test-set samples whose
predicted class matches the true label whenever all batches have the same
(positive) size; with the notebook's uneven split (a final 16-sample batch)
this equality is not guaranteed. -/
theorem CV.epochTestAcc_eq_overall (batches : List (List ℤ × List ℤ)) (k : ℕ)
    (hk : 0 < k) (hne : batches ≠ [])
    (hsz : ∀ b ∈ batches, b.2.length = k) :
    CV.epochTestAcc batches = CV.overallTestAcc batches := by
  have hk0 : (k : ℚ) ≠ 0 := Nat.cast_ne_zero.mpr (by omega)
  have hm0 : ((batches.length : ℚ)) ≠ 0 := by
    have := List.length_pos.mpr hne
    exact Nat.cast_ne_zero.mpr (by omega)
  rw [CV.epochTestAcc, CV.overallTestAcc,
    CV.sum_accuracy_uniform batches k hk hsz, CV.totalCount_uniform batches k hsz]
  push_cast
  field_simp

/-- Witness for the amended C4 at concrete equal-size batches. -/
theorem CV.epochTestAcc_eq_overall_witness :
    CV.epochTestAcc [([0, 1], [0, 2]), ([3, 3], [3, 4])]
      = CV.overallTestAcc [([0, 1], [0, 2]), ([3, 3], [3, 4])] :=
  CV.epochTestAcc_eq_overall [([0, 1], [0, 2]), ([3, 3], [3, 4])] 2
    (by decide) (by decide) (by decide)

namespace CV

/-! ### The model (notebook cells "Define the model" and `model_0`)

```python
class FashionMNISTBaselineModel(nn.Module):
    def __init__(self, input_shape: int, hidden_units: int, output_shape: int):
        super().__init__()
        self.layer_stack = nn.Sequential(
            nn.Flatten(),
            nn.Linear(in_features=input_shape, out_features=hidden_units),
            nn.Linear(in_features=hidden_units, out_features=output_shape),
        )
    def forward(self, x):
        return self.layer_stack(x)

model_0 = FashionMNISTBaselineModel(
    input_shape=784, hidden_units=10, output_shape=len(class_names))
```

Float tensors are modelled as real-valued functions. -/

/-- One FashionMNIST sample image: a single-channel `1×28×28` tensor. -/
def Image : Type := Fin 1 → Fin 28 → Fin 28 → ℝ

/-- `nn.Linear(in_features, out_features)`: a weight matrix and a bias
vector. -/
structure LinearLayer (inF outF : ℕ) where
  weight : Fin outF → Fin inF → ℝ
  bias : Fin outF → ℝ

/-- Forward pass of `nn.Linear`: `x ↦ W·x + b`. -/
def LinearLayer.apply {m n : ℕ} (l : LinearLayer m n) (x : Fin m → ℝ) :
    Fin n → ℝ :=
  fun j => (∑ i, l.weight j i * x i) + l.bias j

/-- `nn.Flatten()` on one `1×28×28` sample: the 784-vector of its pixels in
row-major order. -/
def flattenImage (x : Image) : Fin 784 → ℝ :=
  fun k => x ⟨0, by norm_num⟩ ⟨k.val / 28, by have := k.isLt; omega⟩
    ⟨k.val % 28, by omega⟩

/-- The `FashionMNISTBaselineModel` class: its learnable state is the two
`nn.Linear` layers of its `layer_stack` (`nn.Flatten` has no parameters). -/
structure FashionMNISTBaselineModel (input_shape hidden_units output_shape : ℕ) where
  linear1 : LinearLayer input_shape hidden_units
  linear2 : LinearLayer hidden_units output_shape

/-- `forward`: `nn.Sequential` pipes each sample of the batch through
`Flatten`, then `linear1`, then `linear2`, in that order and nothing else. -/
def FashionMNISTBaselineModel.forward {B hid out : ℕ}
    (m : FashionMNISTBaselineModel 784 hid out) (X : Fin B → Image) :
    Fin B → Fin out → ℝ :=
  fun b => m.linear2.apply (m.linear1.apply (flattenImage (X b)))

/-- `f` is an affine transformation `x ↦ W·x + c`. -/
def IsAffine {m n : ℕ} (f : (Fin m → ℝ) → (Fin n → ℝ)) : Prop :=
  ∃ (W : Fin n → Fin m → ℝ) (c : Fin n → ℝ),
    ∀ x, f x = fun j => (∑ i, W j i * x i) + c j

lemma LinearLayer.isAffine {m n : ℕ} (l : LinearLayer m n) :
    IsAffine l.apply := ⟨l.weight, l.bias, fun _ => rfl⟩

lemma IsAffine.comp {m n p : ℕ} {g : (Fin n → ℝ) → (Fin p → ℝ)}
    {f : (Fin m → ℝ) → (Fin n → ℝ)} (hg : IsAffine g) (hf : IsAffine f) :
    IsAffine (fun x => g (f x)) := by
  obtain ⟨W1, c1, hf⟩ := hf
  obtain ⟨W2, c2, hg⟩ := hg
  refine ⟨fun j i => ∑ k, W2 j k * W1 k i,
    fun j => (∑ k, W2 j k * c1 k) + c2 j, ?_⟩
  intro x
  funext j
  show g (f x) j
      = (∑ i, (∑ k, W2 j k * W1 k i) * x i) + ((∑ k, W2 j k * c1 k) + c2 j)
  have e1 : g (f x) j = (∑ k, W2 j k * (f x) k) + c2 j := by rw [hg (f x)]
  have e2 : ∀ k, (f x) k = (∑ i, W1 k i * x i) + c1 k := fun k => by rw [hf x]
  rw [e1]
  simp only [e2, mul_add, Finset.sum_add_distrib, Finset.mul_sum,
    Finset.sum_mul, mul_assoc]
  rw [Finset.sum_comm]
  ring_nf

/-! ### `model_0` configuration and the data model

`class_names = train_data.classes`: the ten FashionMNIST class names
(torchvision-documented; the notebook's own markdown states "Each example is
a 28x28 grayscale image, associated with a label from 10 classes"). -/

def class_names : List String :=
  ["T-shirt/top", "Trouser", "Pullover", "Dress", "Coat",
   "Sandal", "Shirt", "Sneaker", "Bag", "Ankle boot"]

/-- `input_shape=784` passed to `model_0` ("one for every pixel (28x28)"). -/
def model0_input_shape : ℕ := 784

/-- `hidden_units=10` passed to `model_0`. -/
def model0_hidden_units : ℕ := 10

/-- `output_shape=len(class_names)` passed to `model_0`. -/
def model0_output_shape : ℕ := class_names.length

/-- A sample obtained from `train_data[i]` or `test_data[i]`: a
single-channel `28×28` image paired with a label among the 10 classes. -/
def Sample : Type := Image × Fin 10

end CV

/-- C2: the forward pass of the model, for any weights of `model_0`'s shape
(784 → 10 → 10) and any input batch, is exactly flattening followed by two
affine transformations in sequence; their composition is itself affine, so no
activation, regularization or other non-linear operation occurs between or
after the linear layers. -/
theorem CV.model0_forward_two_affine {B : ℕ}
    (m : FashionMNISTBaselineModel 784 10 10) :
    ∃ (f : (Fin 784 → ℝ) → (Fin 10 → ℝ)) (g : (Fin 10 → ℝ) → (Fin 10 → ℝ)),
      IsAffine f ∧ IsAffine g ∧ IsAffine (fun v => g (f v))
        ∧ ∀ (X : Fin B → CV.Image) (b : Fin B),
            m.forward X b = g (f (flattenImage (X b))) :=
  ⟨m.linear1.apply, m.linear2.apply, m.linear1.isAffine, m.linear2.isAffine,
   (m.linear2.isAffine).comp (m.linear1.isAffine), fun _ _ => rfl⟩

/-- C6: every sample is a single-channel `28×28` image with a label in
`[0, 9]`, and `model_0` is instantiated consistently with this data model:
`input_shape = 784` is the number of pixels `28·28` of a sample image and
`output_shape = 10` is the number of classes, one per label. -/
theorem CV.data_model_consistent (s : CV.Sample) :
    CV.model0_input_shape = 28 * 28
      ∧ CV.model0_input_shape = Fintype.card (Fin 1 × Fin 28 × Fin 28)
      ∧ CV.model0_output_shape = 10
      ∧ (0 ≤ (s.2 : ℕ) ∧ (s.2 : ℕ) ≤ 9)
      ∧ CV.model0_output_shape = Fintype.card (Fin 10) :=
  ⟨rfl, by simp [CV.model0_input_shape], rfl,
   ⟨Nat.zero_le _, by have := s.2.isLt; omega⟩, by simp [CV.model0_output_shape, CV.class_names]⟩

namespace CV

/-! ### `make_predictions` (notebook cell "Step 4. Make predictions")

```python
def make_predictions(model, img, device=device):
    pred_probs = []
    model.eval()
    with torch.inference_mode():
        img = torch.unsqueeze(img, dim=0)          # 1×1×28×28
        pred_logit = model(img)                    # 1×10 raw logits
        pred_prob = torch.softmax(pred_logit.squeeze(), dim=0)  # 10 probs
        pred_probs.append(pred_prob.cpu())
    return torch.stack(pred_probs)                 # 1×10
```
-/

/-- `torch.softmax(z, dim=0)` on an `n`-vector of logits, the float `exp`
modelled as the real exponential. -/
noncomputable def softmax {n : ℕ} (z : Fin n → ℝ) : Fin n → ℝ :=
  fun j => Real.exp (z j) / ∑ i, Real.exp (z i)

/-- The notebook's `make_predictions` for a model with 10 output classes:
`unsqueeze` makes the one-sample batch, the forward pass gives the `1×10`
logits, `squeeze` extracts their single row, `softmax` normalises it, and
`stack([pred_prob])` rebuilds the `1×10` result whose only row is
`pred_prob`. -/
noncomputable def make_predictions {hid : ℕ}
    (m : FashionMNISTBaselineModel 784 hid 10) (img : Image) :
    Fin 1 → Fin 10 → ℝ :=
  fun _ => softmax (m.forward (fun _ : Fin 1 => img) 0)

lemma sum_exp_pos {n : ℕ} (hn : 0 < n) (z : Fin n → ℝ) :
    0 < ∑ i, Real.exp (z i) := by
  have : Nonempty (Fin n) := ⟨⟨0, hn⟩⟩
  exact Finset.sum_pos (fun i _ => Real.exp_pos _) Finset.univ_nonempty

/-! ### Exception flow of the notebook cells

Python semantics of a straight-line cell sequence: each cell issues its
library calls in order; an uncaught exception aborts everything after it.
`PyStmt.tryExcept` is how a cell that did catch exceptions would be
transcribed — no cell of either notebook contains `try`/`except`, so the
transcription `notebookProgram` below uses only `PyStmt.libCall`. -/

def PyExn : Type := ℕ

inductive PyStmt where
  | libCall (site : ℕ)
  | tryExcept (body : List ℕ) (handler : List ℕ)

/-- Run a sequence of library calls; the first raised exception aborts. -/
def runCalls (oracle : ℕ → Except PyExn Unit) : List ℕ → Except PyExn Unit
  | [] => Except.ok ()
  | c :: cs =>
      match oracle c with
      | Except.ok _ => runCalls oracle cs
      | Except.error e => Except.error e

def runStmt (oracle : ℕ → Except PyExn Unit) : PyStmt → Except PyExn Unit
  | PyStmt.libCall s => oracle s
  | PyStmt.tryExcept body handler =>
      match runCalls oracle body with
      | Except.ok _ => Except.ok ()
      | Except.error _ => runCalls oracle handler

def runCells (oracle : ℕ → Except PyExn Unit) : List PyStmt → Except PyExn Unit
  | [] => Except.ok ()
  | st :: rest =>
      match runStmt oracle st with
      | Except.ok _ => runCells oracle rest
      | Except.error e => Except.error e

/-- The exception raised by the first failing call of a site list, if any. -/
def firstRaised (oracle : ℕ → Except PyExn Unit) : List ℕ → Option PyExn
  | [] => none
  | c :: cs =>
      match oracle c with
      | Except.ok _ => firstRaised oracle cs
      | Except.error e => some e

/-- The fallible library-call sites of the notebook's code cells in execution
order: 0 imports, 1 `datasets.FashionMNIST(train=True)` download,
2 `datasets.FashionMNIST(train=False)`, 3 length/type inspection,
4 `train_data.classes`, 5 sample access and prints, 6 `plt.imshow`,
7 `DataLoader(train_data, …)` and `DataLoader(test_data, …)`,
8 dataloader prints, 9 `next(iter(train_dataloader))`, 10 device setup,
11 flatten-layer demo, 12 `model_0` instantiation, 13 loss/optimizer setup,
14 the training/testing loop, 15 `random.randint` draw plus
`test_data[random_garment_idx]` and `make_predictions`, 16 final prints and
`plt.imshow`. -/
def notebookSites : List ℕ := List.range 17

/-- The notebooks' cells transcribed: a plain sequence of library calls, with
no `tryExcept` anywhere. -/
def notebookProgram : List PyStmt := notebookSites.map PyStmt.libCall

lemma runCells_map_libCall (oracle : ℕ → Except PyExn Unit) (sites : List ℕ) :
    runCells oracle (sites.map PyStmt.libCall) = runCalls oracle sites := by
  induction sites with
  | nil => rfl
  | cons c cs ih =>
    simp only [List.map_cons, runCells, runStmt, runCalls]
    cases oracle c <;> simp [ih]

lemma runCalls_eq_firstRaised (oracle : ℕ → Except PyExn Unit) (sites : List ℕ) :
    runCalls oracle sites
      = match firstRaised oracle sites with
        | none => Except.ok ()
        | some e => Except.error e := by
  induction sites with
  | nil => rfl
  | cons c cs ih =>
    simp only [runCalls, firstRaised]
    cases oracle c <;> simp [ih]

end CV

/-- C8: for every model with 10 output classes and every single-sample image,
`make_predictions` returns a `1×10` tensor (its single row indexed by
`Fin 1`) whose entries are non-negative and sum to 1, and that row is the
softmax of the model's logits for the sample. -/
theorem CV.make_predictions_prob {hid : ℕ}
    (m : FashionMNISTBaselineModel 784 hid 10) (img : CV.Image) :
    (∀ (b : Fin 1) (j : Fin 10), 0 ≤ CV.make_predictions m img b j)
      ∧ (∀ b : Fin 1, (∑ j, CV.make_predictions m img b j) = 1)
      ∧ (∀ b : Fin 1, CV.make_predictions m img b
          = CV.softmax (m.forward (fun _ : Fin 1 => img) b)) := by
  refine ⟨?_, ?_, ?_⟩
  · intro b j
    exact div_nonneg (Real.exp_pos _).le (CV.sum_exp_pos (by norm_num) _).le
  · intro b
    simp only [CV.make_predictions, CV.softmax]
    rw [← Finset.sum_div]
    exact div_self (ne_of_gt (CV.sum_exp_pos (by norm_num) _))
  · intro b
    have hb : b = 0 := Fin.ext (by omega)
    subst hb
    rfl

/-- C7: running the notebook's cell sequence under arbitrary outcomes of its
library calls (download failure, out-of-memory, device mismatch, …) returns
`ok` when no call raises, and otherwise exactly the exception raised by the
first failing call: every exception propagates unchanged and aborts the rest
of the run, and there is no catch, transformation, recovery, or retry path. -/
theorem CV.notebook_exception_propagation (oracle : ℕ → Except CV.PyExn Unit) :
    CV.runCells oracle CV.notebookProgram
      = match CV.firstRaised oracle CV.notebookSites with
        | none => Except.ok ()
        | some e => Except.error e := by
  rw [CV.notebookProgram, CV.runCells_map_libCall, CV.runCalls_eq_firstRaised]
